import Mathlib

/-!
Shallow embedding of the structural-shapes section-property library
(src/src/lib.rs). Lengths, areas and moments are modelled as real numbers;
the f64 arithmetic of the source is carried out exactly over the reals.
Rust tuple projections .0/.1 correspond to Lean .1/.2 on pairs.
-/

namespace StructuralShapes

noncomputable section

/-- Shallow embedding of the Rust enum StructuralShape: five variants, each
carrying its geometric parameters and a 2-D center_of_gravity coordinate. -/
inductive StructuralShape where
  | Pipe (outer_radius thickness : ℝ) (center_of_gravity : ℝ × ℝ)
  | IBeam (width height web_thickness flange_thickness : ℝ)
      (center_of_gravity : ℝ × ℝ)
  | BoxBeam (width height thickness : ℝ) (center_of_gravity : ℝ × ℝ)
  | Rod (radius : ℝ) (center_of_gravity : ℝ × ℝ)
  | Rectangle (width height : ℝ) (center_of_gravity : ℝ × ℝ)

/-- Embedding of StructuralShape::area (lib.rs lines 297-324). -/
def StructuralShape.area : StructuralShape → ℝ
  | .Pipe outer_radius thickness _ =>
      Real.pi * (outer_radius * outer_radius
        - (outer_radius - thickness) * (outer_radius - thickness))
  | .IBeam width height web_thickness flange_thickness _ =>
      width * height - (height - 2 * flange_thickness) * (width - web_thickness)
  | .BoxBeam width height thickness _ =>
      width * height - (width - 2 * thickness) * (height - 2 * thickness)
  | .Rod radius _ => Real.pi * radius * radius
  | .Rectangle width height _ => width * height

/-- Embedding of StructuralShape::get_cog (lib.rs lines 327-345). -/
def StructuralShape.get_cog : StructuralShape → ℝ × ℝ
  | .Pipe _ _ center_of_gravity => center_of_gravity
  | .IBeam _ _ _ _ center_of_gravity => center_of_gravity
  | .BoxBeam _ _ _ center_of_gravity => center_of_gravity
  | .Rod _ center_of_gravity => center_of_gravity
  | .Rectangle _ _ center_of_gravity => center_of_gravity

/-- Embedding of StructuralShape::set_cog (lib.rs lines 348-381): replaces
the center_of_gravity field, leaving every other field unchanged. -/
def StructuralShape.set_cog : StructuralShape → ℝ × ℝ → StructuralShape
  | .Pipe outer_radius thickness _, cog => .Pipe outer_radius thickness cog
  | .IBeam width height web_thickness flange_thickness _, cog =>
      .IBeam width height web_thickness flange_thickness cog
  | .BoxBeam width height thickness _, cog => .BoxBeam width height thickness cog
  | .Rod radius _, cog => .Rod radius cog
  | .Rectangle width height _, cog => .Rectangle width height cog

/-- Embedding of the free function swap (lib.rs lines 473-475). -/
def swap (pair : ℝ × ℝ) : ℝ × ℝ := (pair.2, pair.1)

/-- The member list built by composite_ibeam (lib.rs lines 478-507): the full
rectangle added, the two side rectangles beside the web subtracted. -/
def ibeamShapes (width height web_thickness flange_thickness : ℝ)
    (center_of_gravity : ℝ × ℝ) : List (ℤ × StructuralShape) :=
  [(1, .Rectangle width height center_of_gravity),
   (-1, .Rectangle ((width - web_thickness) / 2) (height - 2 * flange_thickness)
      (center_of_gravity.1 - (width - web_thickness) / 4 - web_thickness / 2,
       center_of_gravity.2)),
   (-1, .Rectangle ((width - web_thickness) / 2) (height - 2 * flange_thickness)
      (center_of_gravity.1 + (width - web_thickness) / 4 + web_thickness / 2,
       center_of_gravity.2))]

/-- Termination measure: the compound variants delegate to ephemeral
composites whose members are Rod/Rectangle base shapes. -/
def StructuralShape.sdepth : StructuralShape → Nat
  | .Rod _ _ => 1
  | .Rectangle _ _ _ => 1
  | _ => 5

/-- Termination measure for a member list: one plus the total depth. -/
def listDepth : List (ℤ × StructuralShape) → Nat
  | [] => 1
  | x :: rest => x.2.sdepth + listDepth rest

mutual

/-- Embedding of StructuralShape::moi_x (lib.rs lines 163-226). Pipe and
BoxBeam build an ephemeral composite and take its x-moment; IBeam builds the
composite_ibeam member list and takes its y-moment; Rod and Rectangle use the
closed form plus area times the square of the x-coordinate of the cog. -/
def StructuralShape.moi_x : StructuralShape → ℝ
  | .Pipe outer_radius thickness center_of_gravity =>
      moiXList [(1, .Rod outer_radius center_of_gravity),
                (-1, .Rod (outer_radius - thickness) center_of_gravity)]
  | .IBeam width height web_thickness flange_thickness center_of_gravity =>
      moiYList (ibeamShapes width height web_thickness flange_thickness
        center_of_gravity)
  | .BoxBeam width height thickness center_of_gravity =>
      moiXList [(1, .Rectangle width height center_of_gravity),
                (-1, .Rectangle (width - 2 * thickness) (height - 2 * thickness)
                  center_of_gravity)]
  | .Rod radius center_of_gravity =>
      Real.pi * radius * radius * radius * radius / 4
        + (StructuralShape.Rod radius center_of_gravity).area
          * center_of_gravity.1 * center_of_gravity.1
  | .Rectangle width height center_of_gravity =>
      width * height * height * height / 12
        + (StructuralShape.Rectangle width height center_of_gravity).area
          * center_of_gravity.1 * center_of_gravity.1
termination_by s => (s.sdepth, 0)
decreasing_by
  all_goals simp [StructuralShape.sdepth, listDepth, ibeamShapes]
  all_goals omega

/-- Embedding of StructuralShape::moi_y (lib.rs lines 234-289). Pipe and
BoxBeam delegate to moi_x on a rotated copy with swapped cog; IBeam builds
the composite_ibeam member list and takes its y-moment (identical to moi_x);
Rod and Rectangle use the closed form plus area times the square of the
y-coordinate of the cog. -/
def StructuralShape.moi_y : StructuralShape → ℝ
  | .Pipe outer_radius thickness center_of_gravity =>
      StructuralShape.moi_x (.Pipe outer_radius thickness (swap center_of_gravity))
  | .IBeam width height web_thickness flange_thickness center_of_gravity =>
      moiYList (ibeamShapes width height web_thickness flange_thickness
        center_of_gravity)
  | .BoxBeam width height thickness center_of_gravity =>
      StructuralShape.moi_x
        (.BoxBeam height width thickness (swap center_of_gravity))
  | .Rod radius center_of_gravity =>
      Real.pi * radius * radius * radius * radius / 4
        + (StructuralShape.Rod radius center_of_gravity).area
          * center_of_gravity.2 * center_of_gravity.2
  | .Rectangle width height center_of_gravity =>
      width * height * height * height / 12
        + (StructuralShape.Rectangle width height center_of_gravity).area
          * center_of_gravity.2 * center_of_gravity.2
termination_by s => (s.sdepth, 1)
decreasing_by
  all_goals simp [StructuralShape.sdepth, listDepth, ibeamShapes]
  all_goals omega

/-- Signed sum of member x-moments: the body of CompositeShape::moi_x
(lib.rs line 453) as structural recursion over the member list. -/
def moiXList : List (ℤ × StructuralShape) → ℝ
  | [] => 0
  | x :: rest => (x.1 : ℝ) * x.2.moi_x + moiXList rest
termination_by l => (listDepth l, 0)
decreasing_by
  all_goals simp [listDepth]
  · have h1 : 1 ≤ listDepth rest := by
      cases rest with
      | nil => simp [listDepth]
      | cons y t =>
          have h2 : 1 ≤ y.2.sdepth := by
            cases y.2 <;> simp [StructuralShape.sdepth]
          simp only [listDepth]
          omega
    omega
  · have h1 : 1 ≤ x.2.sdepth := by
      cases x.2 <;> simp [StructuralShape.sdepth]
    omega

/-- Signed sum of member y-moments: the body of CompositeShape::moi_y
(lib.rs line 457) as structural recursion over the member list. -/
def moiYList : List (ℤ × StructuralShape) → ℝ
  | [] => 0
  | x :: rest => (x.1 : ℝ) * x.2.moi_y + moiYList rest
termination_by l => (listDepth l, 1)
decreasing_by
  all_goals simp [listDepth]
  · have h1 : 1 ≤ listDepth rest := by
      cases rest with
      | nil => simp [listDepth]
      | cons y t =>
          have h2 : 1 ≤ y.2.sdepth := by
            cases y.2 <;> simp [StructuralShape.sdepth]
          simp only [listDepth]
          omega
    omega
  · have h1 : 1 ≤ x.2.sdepth := by
      cases x.2 <;> simp [StructuralShape.sdepth]
    omega

end

/-- Embedding of the Rust struct CompositeShape: an ordered list of
(sign, shape) member pairs (lib.rs lines 397-401). -/
structure CompositeShape where
  shapes : List (ℤ × StructuralShape)

/-- Embedding of CompositeShape::new / Default (lib.rs lines 405-407, 466-470). -/
def CompositeShape.new : CompositeShape := ⟨[]⟩

/-- Embedding of CompositeShape::add (lib.rs lines 409-412): pushes the new
shape with sign +1 and returns the resulting composite. -/
def CompositeShape.add (c : CompositeShape) (new_shape : StructuralShape) :
    CompositeShape := ⟨c.shapes ++ [(1, new_shape)]⟩

/-- Embedding of CompositeShape::sub (lib.rs lines 414-417): pushes the new
shape with sign -1 and returns the resulting composite. -/
def CompositeShape.sub (c : CompositeShape) (new_shape : StructuralShape) :
    CompositeShape := ⟨c.shapes ++ [(-1, new_shape)]⟩

/-- Embedding of CompositeShape::area (lib.rs lines 460-462). -/
def CompositeShape.area (c : CompositeShape) : ℝ :=
  (c.shapes.map (fun x => (x.1 : ℝ) * x.2.area)).sum

/-- Embedding of CompositeShape::moi_x (lib.rs lines 452-454). -/
def CompositeShape.moi_x (c : CompositeShape) : ℝ := moiXList c.shapes

/-- Embedding of CompositeShape::moi_y (lib.rs lines 456-458). -/
def CompositeShape.moi_y (c : CompositeShape) : ℝ := moiYList c.shapes

/-- Embedding of CompositeShape::calculate_cog (lib.rs lines 419-440): the
signed area-weighted sums of the members' cog coordinates, each divided by
the composite's signed net area. -/
def CompositeShape.calculate_cog (c : CompositeShape) : ℝ × ℝ :=
  ((c.shapes.map (fun x => (x.1 : ℝ) * x.2.area * (x.2.get_cog).1)).sum / c.area,
   (c.shapes.map (fun x => (x.1 : ℝ) * x.2.area * (x.2.get_cog).2)).sum / c.area)

/-- Embedding of CompositeShape::update_cog (lib.rs lines 442-449): shifts
every member's stored cog by subtracting the composite centroid
component-wise. -/
def CompositeShape.update_cog (c : CompositeShape) : CompositeShape :=
  ⟨c.shapes.map (fun x =>
    (x.1, x.2.set_cog ((x.2.get_cog).1 - (c.calculate_cog).1,
                       (x.2.get_cog).2 - (c.calculate_cog).2)))⟩

/-- Embedding of the free function composite_ibeam (lib.rs lines 478-507). -/
def composite_ibeam (width height web_thickness flange_thickness : ℝ)
    (center_of_gravity : ℝ × ℝ) : CompositeShape :=
  ((CompositeShape.new.add
      (.Rectangle width height center_of_gravity)).sub
      (.Rectangle ((width - web_thickness) / 2) (height - 2 * flange_thickness)
        (center_of_gravity.1 - (width - web_thickness) / 4 - web_thickness / 2,
         center_of_gravity.2))).sub
      (.Rectangle ((width - web_thickness) / 2) (height - 2 * flange_thickness)
        (center_of_gravity.1 + (width - web_thickness) / 4 + web_thickness / 2,
         center_of_gravity.2))

/-- The offset coordinate that actually enters moi_x for each variant: the
x-coordinate of the stored cog for Pipe, BoxBeam, Rod and Rectangle, but the
y-coordinate for IBeam (whose moi_x delegates to the composite's moi_y). -/
def moiXOffset : StructuralShape → ℝ
  | .IBeam _ _ _ _ center_of_gravity => center_of_gravity.2
  | s => s.get_cog.1

/-- Recognizer for the IBeam variant. -/
def StructuralShape.isIBeam : StructuralShape → Bool
  | .IBeam _ _ _ _ _ => true
  | _ => false

/-- Spec-side formula (section 4.2 of the spec): the signed sum of
sign times member area times the x-coordinate of the member cog. -/
def specMomentX : List (ℤ × StructuralShape) → ℝ
  | [] => 0
  | x :: rest => (x.1 : ℝ) * x.2.area * (x.2.get_cog).1 + specMomentX rest

/-- Spec-side formula (section 4.2 of the spec): the signed sum of
sign times member area times the y-coordinate of the member cog. -/
def specMomentY : List (ℤ × StructuralShape) → ℝ
  | [] => 0
  | x :: rest => (x.1 : ℝ) * x.2.area * (x.2.get_cog).2 + specMomentY rest

/-- Spec-side formula (section 4.2 of the spec): the signed net area of a
member list. -/
def specSignedArea : List (ℤ × StructuralShape) → ℝ
  | [] => 0
  | x :: rest => (x.1 : ℝ) * x.2.area + specSignedArea rest

/-- Observer distinguishing the five variants, cog-blind. -/
def variantIdx : StructuralShape → Nat
  | .Pipe _ _ _ => 0
  | .IBeam _ _ _ _ _ => 1
  | .BoxBeam _ _ _ _ => 2
  | .Rod _ _ => 3
  | .Rectangle _ _ _ => 4

/-- Observer collecting every geometric dimension parameter of a shape,
excluding the center_of_gravity. -/
def dims : StructuralShape → List ℝ
  | .Pipe outer_radius thickness _ => [outer_radius, thickness]
  | .IBeam width height web_thickness flange_thickness _ =>
      [width, height, web_thickness, flange_thickness]
  | .BoxBeam width height thickness _ => [width, height, thickness]
  | .Rod radius _ => [radius]
  | .Rectangle width height _ => [width, height]

/-- A composite whose signed net area is exactly zero: a rod added and the
identical rod subtracted. -/
def zeroAreaComposite : CompositeShape :=
  (CompositeShape.new.add (.Rod 1 (0, 0))).sub (.Rod 1 (0, 0))

/-- Concrete composite used to instantiate the update_cog theorem: a unit
square centered at (2, 3/2). -/
def exampleSquare : CompositeShape :=
  CompositeShape.new.add (.Rectangle 1 1 (2, 3 / 2))

/-- Concrete composite used to instantiate the calculate_cog theorem: a
2-by-3 rectangle centered at (1, 2). -/
def exampleRect : CompositeShape :=
  CompositeShape.new.add (.Rectangle 2 3 (1, 2))

theorem composite_ibeam_shapes (width height web_thickness flange_thickness : ℝ)
    (center_of_gravity : ℝ × ℝ) :
    (composite_ibeam width height web_thickness flange_thickness
      center_of_gravity).shapes
      = ibeamShapes width height web_thickness flange_thickness
          center_of_gravity := by
  simp [composite_ibeam, ibeamShapes, CompositeShape.new, CompositeShape.add,
    CompositeShape.sub]

theorem area_set_cog (s : StructuralShape) (cog : ℝ × ℝ) :
    (s.set_cog cog).area = s.area := by
  cases s <;> rfl

theorem get_cog_set_cog (s : StructuralShape) (cog : ℝ × ℝ) :
    (s.set_cog cog).get_cog = cog := by
  cases s <;> rfl

theorem set_cog_get_cog (s : StructuralShape) : s.set_cog s.get_cog = s := by
  cases s <;> rfl

/-- C8: area() returns exactly the closed-form outer-minus-inner expressions
of the spec for every parameter value, independently of the stored cog:
pi r^2 for Rod, pi (R^2 - (R-t)^2) for Pipe, w h for Rectangle,
w h - (w-2t)(h-2t) for BoxBeam, and w h - (h-2 ft)(w-wt) for IBeam. -/
theorem C8_area_formulas (r R t w h wt ft : ℝ) (cog : ℝ × ℝ) :
    (StructuralShape.Rod r cog).area = Real.pi * r ^ 2
    ∧ (StructuralShape.Pipe R t cog).area = Real.pi * (R ^ 2 - (R - t) ^ 2)
    ∧ (StructuralShape.Rectangle w h cog).area = w * h
    ∧ (StructuralShape.BoxBeam w h t cog).area
        = w * h - (w - 2 * t) * (h - 2 * t)
    ∧ (StructuralShape.IBeam w h wt ft cog).area
        = w * h - (h - 2 * ft) * (w - wt) := by
  refine ⟨?_, ?_, ?_, ?_, ?_⟩ <;> simp only [StructuralShape.area] <;> ring

/-- C9: for every IBeam, moi_x() and moi_y() return exactly the same value;
both build the identical internal composite through composite_ibeam and both
take that composite's y-moment. -/
theorem C9_ibeam_moi_x_eq_moi_y (w h wt ft : ℝ) (cog : ℝ × ℝ) :
    (StructuralShape.IBeam w h wt ft cog).moi_x
        = (StructuralShape.IBeam w h wt ft cog).moi_y
    ∧ (StructuralShape.IBeam w h wt ft cog).moi_x
        = (composite_ibeam w h wt ft cog).moi_y := by
  constructor
  · simp [StructuralShape.moi_x, StructuralShape.moi_y]
  · simp [StructuralShape.moi_x, CompositeShape.moi_y, composite_ibeam_shapes]

/-- C2 counterexample: moi_y() of the IBeam with width 2, height 4 and unit
web and flange thicknesses at the origin (value 10) differs from moi_x() of
the width/height-swapped IBeam (value 8/3), so IBeam moi_y is not the rotated
moi_x. -/
theorem C2_counterexample :
    (StructuralShape.IBeam 2 4 1 1 (0, 0)).moi_y
      ≠ (StructuralShape.IBeam 4 2 1 1 (0, 0)).moi_x := by
  simp [StructuralShape.moi_x, StructuralShape.moi_y, moiYList, ibeamShapes,
    StructuralShape.area]
  norm_num

/-- C2 amended: IBeam moi_y() is not obtained by rotating the section; it
rebuilds the identical composite_ibeam member list with unswapped arguments
and takes that composite's y-moment, hence it coincides with the IBeam's own
moi_x(). -/
theorem C2_amended_ibeam_moi_y_reuses_composite (w h wt ft : ℝ)
    (cog : ℝ × ℝ) :
    (StructuralShape.IBeam w h wt ft cog).moi_y
        = (composite_ibeam w h wt ft cog).moi_y
    ∧ (StructuralShape.IBeam w h wt ft cog).moi_y
        = (StructuralShape.IBeam w h wt ft cog).moi_x := by
  constructor
  · simp [StructuralShape.moi_y, CompositeShape.moi_y, composite_ibeam_shapes]
  · simp [StructuralShape.moi_x, StructuralShape.moi_y]

/-- C1 counterexample: for the Rod of radius 1 with cog (1, 0), moi_x()
(value pi/4 + pi) differs from its centroidal x-moment plus area() times the
squared y-coordinate of the cog (value pi/4): the x-moment does not use the
y-offset. -/
theorem C1_counterexample :
    (StructuralShape.Rod 1 (1, 0)).moi_x
      ≠ (StructuralShape.Rod 1 (0, 0)).moi_x
          + (StructuralShape.Rod 1 (1, 0)).area * (0 : ℝ) ^ 2 := by
  simp [StructuralShape.moi_x, StructuralShape.area]
  norm_num [Real.pi_ne_zero]

/-- C1 amended: moi_x() equals the centroidal x-moment (the value with the
cog at the origin) plus area() times the square of the x-coordinate of the
stored cog for Rod, Pipe, Rectangle and BoxBeam, but times the square of the
y-coordinate for IBeam; moi_y() equals the centroidal y-moment plus area()
times the square of the y-coordinate for all five variants. The offset
entering each moment is the centroid coordinate along the same axis as the
moment, not the other axis, except IBeam's moi_x which uses y. -/
theorem C1_amended_parallel_axis_offsets (s : StructuralShape) :
    s.moi_x = (s.set_cog (0, 0)).moi_x + s.area * moiXOffset s ^ 2
    ∧ s.moi_y = (s.set_cog (0, 0)).moi_y + s.area * (s.get_cog).2 ^ 2 := by
  cases s <;> constructor <;>
    simp [StructuralShape.moi_x, StructuralShape.moi_y, moiXList, moiYList,
      ibeamShapes, StructuralShape.area, StructuralShape.set_cog,
      StructuralShape.get_cog, swap, moiXOffset] <;> ring

/-- C3 counterexample: moving the centroid of the IBeam(2, 2, 1, 1) from the
origin by d = 1 along the x-axis leaves moi_x() unchanged (4/3) instead of
increasing it by area() times d squared (which would give 4/3 + 4). -/
theorem C3_counterexample :
    (StructuralShape.IBeam 2 2 1 1 (1, 0)).moi_x
      ≠ (StructuralShape.IBeam 2 2 1 1 (0, 0)).moi_x
          + (StructuralShape.IBeam 2 2 1 1 (0, 0)).area * 1 ^ 2 := by
  simp [StructuralShape.moi_x, StructuralShape.moi_y, moiYList, ibeamShapes,
    StructuralShape.area]

/-- C3 amended: moving the centroid from the origin by d along the y-axis
increases moi_y() by exactly area() times d squared for all five variants;
moving it by d along the x-axis increases moi_x() by area() times d squared
for Rod, Pipe, Rectangle and BoxBeam, but leaves an IBeam's moi_x()
unchanged, since an IBeam's moments depend only on the y-coordinate of its
cog. -/
theorem C3_amended_same_axis_shift (s : StructuralShape) (d : ℝ) :
    (s.set_cog (0, d)).moi_y = (s.set_cog (0, 0)).moi_y + s.area * d ^ 2
    ∧ (s.set_cog (d, 0)).moi_x
        = (s.set_cog (0, 0)).moi_x
            + (if s.isIBeam then 0 else s.area * d ^ 2) := by
  cases s <;> constructor <;>
    simp [StructuralShape.moi_x, StructuralShape.moi_y, moiXList, moiYList,
      ibeamShapes, StructuralShape.area, StructuralShape.set_cog,
      StructuralShape.get_cog, swap, StructuralShape.isIBeam] <;> ring

/-- C7 counterexample: with the shared cog (1, 0), the degenerate
IBeam(2, 2, 1, 1) has moi_x() = 4/3 while Rectangle(2, 2) has
moi_x() = 4/3 + 4, so the two are not equal for every shared cog. -/
theorem C7_counterexample :
    (StructuralShape.IBeam 2 2 1 1 (1, 0)).moi_x
      ≠ (StructuralShape.Rectangle 2 2 (1, 0)).moi_x := by
  simp [StructuralShape.moi_x, StructuralShape.moi_y, moiYList, ibeamShapes,
    StructuralShape.area]

/-- C7 amended: the degenerate IBeam(2, 2, 1, 1) agrees with
Rectangle(2, 2) carrying the same cog exactly on moi_y() for every cog,
while its moi_x() differs from the Rectangle's by 4 (cy^2 - cx^2); the two
moi_x() values agree exactly when cx^2 = cy^2, in particular at the origin
(the spec's test case). -/
theorem C7_amended_degenerate_ibeam (cog : ℝ × ℝ) :
    (StructuralShape.IBeam 2 2 1 1 cog).moi_y
        = (StructuralShape.Rectangle 2 2 cog).moi_y
    ∧ (StructuralShape.IBeam 2 2 1 1 cog).moi_x
        = (StructuralShape.Rectangle 2 2 cog).moi_x
            + 4 * (cog.2 ^ 2 - cog.1 ^ 2) := by
  constructor
  · simp [StructuralShape.moi_x, StructuralShape.moi_y, moiYList, ibeamShapes,
      StructuralShape.area]
  · simp [StructuralShape.moi_x, StructuralShape.moi_y, moiYList, ibeamShapes,
      StructuralShape.area]
    ring

theorem variantIdx_set_cog (s : StructuralShape) (cog : ℝ × ℝ) :
    variantIdx (s.set_cog cog) = variantIdx s := by
  cases s <;> rfl

theorem dims_set_cog (s : StructuralShape) (cog : ℝ × ℝ) :
    dims (s.set_cog cog) = dims s := by
  cases s <;> rfl

theorem sum_map_fst_eq_specMomentX (l : List (ℤ × StructuralShape)) :
    (l.map (fun x => (x.1 : ℝ) * x.2.area * (x.2.get_cog).1)).sum
      = specMomentX l := by
  induction l with
  | nil => simp [specMomentX]
  | cons x rest ih => simp [specMomentX, ih]

theorem sum_map_snd_eq_specMomentY (l : List (ℤ × StructuralShape)) :
    (l.map (fun x => (x.1 : ℝ) * x.2.area * (x.2.get_cog).2)).sum
      = specMomentY l := by
  induction l with
  | nil => simp [specMomentY]
  | cons x rest ih => simp [specMomentY, ih]

theorem sum_map_eq_specSignedArea (l : List (ℤ × StructuralShape)) :
    (l.map (fun x => (x.1 : ℝ) * x.2.area)).sum = specSignedArea l := by
  induction l with
  | nil => simp [specSignedArea]
  | cons x rest ih => simp [specSignedArea, ih]

theorem sum_shifted_x (l : List (ℤ × StructuralShape)) (X : ℝ) :
    (l.map (fun x => (x.1 : ℝ) * x.2.area * ((x.2.get_cog).1 - X))).sum
      = (l.map (fun x => (x.1 : ℝ) * x.2.area * (x.2.get_cog).1)).sum
          - X * (l.map (fun x => (x.1 : ℝ) * x.2.area)).sum := by
  induction l with
  | nil => simp
  | cons y t ih =>
      simp only [List.map_cons, List.sum_cons, ih]
      ring

theorem sum_shifted_y (l : List (ℤ × StructuralShape)) (Y : ℝ) :
    (l.map (fun x => (x.1 : ℝ) * x.2.area * ((x.2.get_cog).2 - Y))).sum
      = (l.map (fun x => (x.1 : ℝ) * x.2.area * (x.2.get_cog).2)).sum
          - Y * (l.map (fun x => (x.1 : ℝ) * x.2.area)).sum := by
  induction l with
  | nil => simp
  | cons y t ih =>
      simp only [List.map_cons, List.sum_cons, ih]
      ring

theorem area_update_cog (c : CompositeShape) : (c.update_cog).area = c.area := by
  simp [CompositeShape.update_cog, CompositeShape.area, List.map_map,
    Function.comp_def, area_set_cog]

theorem calculate_cog_update_cog (c : CompositeShape) (h : c.area ≠ 0) :
    (c.update_cog).calculate_cog = (0, 0) := by
  have hA : (c.update_cog).area = c.area := area_update_cog c
  have hnx : ((c.update_cog).shapes.map
      (fun x => (x.1 : ℝ) * x.2.area * (x.2.get_cog).1)).sum = 0 := by
    simp only [CompositeShape.update_cog, List.map_map, Function.comp_def,
      area_set_cog, get_cog_set_cog]
    rw [sum_shifted_x]
    have hX : (c.calculate_cog).1
        = (c.shapes.map (fun x => (x.1 : ℝ) * x.2.area * (x.2.get_cog).1)).sum
            / c.area := rfl
    have hS : (c.shapes.map (fun x => (x.1 : ℝ) * x.2.area)).sum = c.area := rfl
    rw [hX, hS, div_mul_cancel₀ _ h]
    ring
  have hny : ((c.update_cog).shapes.map
      (fun x => (x.1 : ℝ) * x.2.area * (x.2.get_cog).2)).sum = 0 := by
    simp only [CompositeShape.update_cog, List.map_map, Function.comp_def,
      area_set_cog, get_cog_set_cog]
    rw [sum_shifted_y]
    have hY : (c.calculate_cog).2
        = (c.shapes.map (fun x => (x.1 : ℝ) * x.2.area * (x.2.get_cog).2)).sum
            / c.area := rfl
    have hS : (c.shapes.map (fun x => (x.1 : ℝ) * x.2.area)).sum = c.area := rfl
    rw [hY, hS, div_mul_cancel₀ _ h]
    ring
  have hfinal : (c.update_cog).calculate_cog = (0 / c.area, 0 / c.area) := by
    simp only [CompositeShape.calculate_cog, hnx, hny, hA]
  simp [hfinal]

theorem update_cog_of_origin (u : CompositeShape)
    (h0 : u.calculate_cog = (0, 0)) : u.update_cog = u := by
  simp only [CompositeShape.update_cog, h0]
  simp only [Prod.fst_zero, Prod.snd_zero, sub_zero]
  have hmap : u.shapes.map (fun x =>
      (x.1, x.2.set_cog ((x.2.get_cog).1, (x.2.get_cog).2))) = u.shapes := by
    have hpt : ∀ x : ℤ × StructuralShape,
        (x.1, x.2.set_cog ((x.2.get_cog).1, (x.2.get_cog).2)) = x := by
      intro x
      rw [Prod.mk.eta, set_cog_get_cog]
    simp only [hpt]
    simp
  rw [hmap]

/-- C4: for a composite with nonzero signed net area, update_cog() replaces
every member's stored cog by the old cog minus the composite centroid
component-wise, the recomputed calculate_cog() of the result is exactly
(0, 0), and a second update_cog() is a no-op. -/
theorem C4_update_cog_recenters (c : CompositeShape) (h : c.area ≠ 0) :
    (c.update_cog).shapes
        = c.shapes.map (fun x =>
            (x.1, x.2.set_cog ((x.2.get_cog).1 - (c.calculate_cog).1,
                               (x.2.get_cog).2 - (c.calculate_cog).2)))
    ∧ (c.update_cog).calculate_cog = (0, 0)
    ∧ (c.update_cog).update_cog = c.update_cog :=
  ⟨rfl, calculate_cog_update_cog c h,
    update_cog_of_origin _ (calculate_cog_update_cog c h)⟩

/-- C4 witness: the unit square at (2, 3/2) has nonzero area, and after
update_cog() its recomputed centroid is the origin. -/
theorem C4_witness :
    exampleSquare.area ≠ 0
    ∧ (exampleSquare.update_cog).calculate_cog = (0, 0) := by
  have h : exampleSquare.area ≠ 0 := by
    simp [exampleSquare, CompositeShape.new, CompositeShape.add,
      CompositeShape.area, StructuralShape.area]
  exact ⟨h, (C4_update_cog_recenters exampleSquare h).2.1⟩

/-- C5: evaluation at the failing input. The composite made of a rod added
and the identical rod subtracted has signed net area exactly zero, yet
calculate_cog() does not fail: it performs the division by the zero area
unconditionally and returns a coordinate pair anyway (NaN in the source's
f64 arithmetic; the junk value 0 under the total real division of this
embedding). The source signature returns a plain pair and has no error
channel at all. -/
theorem C5_zero_area_no_error :
    zeroAreaComposite.area = 0 ∧ zeroAreaComposite.calculate_cog = (0, 0) := by
  constructor
  · simp [zeroAreaComposite, CompositeShape.new, CompositeShape.add,
      CompositeShape.sub, CompositeShape.area, StructuralShape.area]
  · simp [zeroAreaComposite, CompositeShape.new, CompositeShape.add,
      CompositeShape.sub, CompositeShape.calculate_cog,
      StructuralShape.get_cog]

/-- C6: for every composite with nonzero signed net area, calculate_cog()
returns exactly the signed-area-weighted centroid of its direct members,
the pair of signed sums of sign times member area times member cog
coordinate, each divided by the signed net area. The embedding of
calculate_cog is a pure function of the composite: the source takes
an immutable borrow and mutates nothing. -/
theorem C6_calculate_cog_formula (c : CompositeShape) (_h : c.area ≠ 0) :
    c.calculate_cog
      = (specMomentX c.shapes / specSignedArea c.shapes,
         specMomentY c.shapes / specSignedArea c.shapes) := by
  unfold CompositeShape.calculate_cog CompositeShape.area
  rw [sum_map_fst_eq_specMomentX, sum_map_snd_eq_specMomentY,
    sum_map_eq_specSignedArea]

/-- C6 witness: the 2-by-3 rectangle at (1, 2) has nonzero net area and its
calculate_cog() matches the spec formula. -/
theorem C6_witness :
    exampleRect.area ≠ 0
    ∧ exampleRect.calculate_cog
        = (specMomentX exampleRect.shapes / specSignedArea exampleRect.shapes,
           specMomentY exampleRect.shapes / specSignedArea exampleRect.shapes)
    := by
  have h : exampleRect.area ≠ 0 := by
    simp [exampleRect, CompositeShape.new, CompositeShape.add,
      CompositeShape.area, StructuralShape.area]
  exact ⟨h, C6_calculate_cog_formula exampleRect h⟩

/-- C10: update_cog() only rewrites the center_of_gravity of each member:
the sign, the variant and every geometric dimension parameter of each
member, as well as the number and order of members, are unchanged. -/
theorem C10_update_cog_frame (c : CompositeShape) :
    (c.update_cog).shapes.map (fun x => (x.1, variantIdx x.2, dims x.2))
      = c.shapes.map (fun x => (x.1, variantIdx x.2, dims x.2)) := by
  simp only [CompositeShape.update_cog, List.map_map, Function.comp_def,
    variantIdx_set_cog, dims_set_cog]

end

end StructuralShapes
